import Mathlib

/-!
Verification development for the YoutubeAutomation service (src/main.py),
via a shallow embedding of its audio-replacement pipeline, trending-song
selector, download strategies and HTTP request handlers.

Durations are modelled as rationals (the Python code works with
floating-point seconds; the claims under scrutiny are about the exact
arithmetic structure of the looping and trimming logic, so an exact
numeric type is the faithful shallow embedding). Filesystem state is a map
from scratch-directory filenames to optional byte lists. External effects
(HTTP calls, the media library, exceptions) are supplied as explicit
environment values describing their outcome.
-/

namespace YoutubeAutomation

/-! ## Audio replacer: loop and trim arithmetic (process_video, lines 244-252) -/

/-- Number of looped copies of the replacement track, from
`loops = int(video.duration / new_audio.duration) + 1` in process_video.
Durations are positive, so the Python int truncation is the floor. -/
def loops (D d : ℚ) : ℕ := (⌊D / d⌋).toNat + 1

/-- Start offsets of the looped copies, from
`new_audio.set_start(i * new_audio.duration) for i in range(loops)`. -/
def loopStarts (D d : ℚ) : List ℚ :=
  (List.range (loops D d)).map (fun i : ℕ => (i : ℚ) * d)

/-- Duration of the CompositeAudioClip built from the looped copies:
each copy lasts d and copy i starts at i * d, so the composite ends at
loops * d. -/
def compositeDuration (D d : ℚ) : ℚ := (loops D d : ℚ) * d

/-- Duration of the clip bound to new_audio just before the trim: the
composite when the looping branch ran (gated on
`video.duration > new_audio.duration`), the raw downloaded track
otherwise. -/
def preTrimDuration (D d : ℚ) : ℚ :=
  if d < D then compositeDuration D d else d

/-- moviepy `clip.subclip(t0, t1)`: the result has duration t1 - t0 and is
well defined when the requested interval lies inside the clip. -/
def subclip (clipDur t0 t1 : ℚ) : Option ℚ :=
  if 0 ≤ t0 ∧ t0 ≤ t1 ∧ t1 ≤ clipDur then some (t1 - t0) else none

/-- Duration of the replacement audio attached to the final video, from
`new_audio = new_audio.subclip(0, video.duration)`. -/
def attachedAudioDuration (D d : ℚ) : Option ℚ :=
  subclip (preTrimDuration D d) 0 D

/-- Helper for concrete evaluations: the floor in loops 130 47. -/
theorem floor_130_47 : ⌊(130 : ℚ) / 47⌋ = 2 := by norm_num

/-- Concrete loop count of the spec scenario: D = 130, d = 47. -/
theorem loops_130_47 : loops 130 47 = 3 := by
  unfold loops
  rw [floor_130_47]
  decide

/-- Concrete composite span of the spec scenario. -/
theorem compositeDuration_130_47 : compositeDuration 130 47 = 141 := by
  unfold compositeDuration
  rw [loops_130_47]
  norm_num

/-! ## Audio replacer: control flow, handles and exit paths (process_video, lines 210-280) -/

/-- Media handles opened by process_video: the source VideoFileClip, the
derived without-audio clip, the replacement-audio clip chain
(AudioFileClip, then CompositeAudioClip, then its subclip, all reachable
through the new_audio variable), and the final set_audio clip. -/
inductive Handle
  | video
  | videoNoAudio
  | audioChain
  | finalVideo
  deriving DecidableEq, Repr

/-- Points at which a media-library call inside the try block of
process_video can raise. A point names one concrete operation; when that
operation is not executed on a given path, the point is simply never
reached and the run completes. loadVideo is the VideoFileClip open,
writeSilent the write_videofile of the silent branch, openAudio the
AudioFileClip open, writeFinal the final write_videofile. -/
inductive FailPoint
  | ok
  | loadVideo
  | writeSilent
  | openAudio
  | writeFinal
  deriving DecidableEq, Repr

/-- Observable outcome of one run of process_video. -/
structure PvResult where
  success : Bool
  outputWritten : Bool
  outputHasAudio : Bool
  outputDuration : Option ℚ
  audioDuration : Option ℚ
  opened : List Handle
  closed : List Handle
  audioFileDeleted : Bool
  deriving Repr

/-- Shallow embedding of process_video: D is the source video duration,
fetched is the result of download_youtube_audio (the duration of the
downloaded track, or none when the fetch failed), fail says which media
operation, if any, raises. The except handler at the bottom of the
function catches every exception, prints, and returns False without
closing anything; the close calls occur only on the two normal paths, in
the source order (new_audio, final_video, video_no_audio on the audio
path, video_no_audio on the silent path, then video in both). -/
def process_video (D : ℚ) (fetched : Option ℚ) (fail : FailPoint) : PvResult :=
  if fail = FailPoint.loadVideo then
    { success := false, outputWritten := false, outputHasAudio := false
      outputDuration := none, audioDuration := none
      opened := [], closed := [], audioFileDeleted := false }
  else
    match fetched with
    | none =>
      if fail = FailPoint.writeSilent then
        { success := false, outputWritten := false, outputHasAudio := false
          outputDuration := none, audioDuration := none
          opened := [Handle.video, Handle.videoNoAudio], closed := []
          audioFileDeleted := false }
      else
        { success := true, outputWritten := true, outputHasAudio := false
          outputDuration := some D, audioDuration := none
          opened := [Handle.video, Handle.videoNoAudio]
          closed := [Handle.videoNoAudio, Handle.video]
          audioFileDeleted := false }
    | some d =>
      if fail = FailPoint.openAudio then
        { success := false, outputWritten := false, outputHasAudio := false
          outputDuration := none, audioDuration := none
          opened := [Handle.video], closed := [], audioFileDeleted := false }
      else if fail = FailPoint.writeFinal then
        { success := false, outputWritten := false, outputHasAudio := false
          outputDuration := none, audioDuration := none
          opened := [Handle.video, Handle.audioChain, Handle.videoNoAudio,
                     Handle.finalVideo]
          closed := [], audioFileDeleted := false }
      else
        { success := true, outputWritten := true, outputHasAudio := true
          outputDuration := some D
          audioDuration := attachedAudioDuration D d
          opened := [Handle.video, Handle.audioChain, Handle.videoNoAudio,
                     Handle.finalVideo]
          closed := [Handle.audioChain, Handle.finalVideo,
                     Handle.videoNoAudio, Handle.video]
          audioFileDeleted := true }

/-! ## Trending selector (get_trending_song, lines 176-207) -/

/-- One item of the ranking-source response: a video id and its view
count. The code reads only the id; the view count is carried so that the
spec claim about view-count-based selection can be stated. -/
structure TrendingItem where
  id : String
  viewCount : ℕ
  deriving DecidableEq, Repr

/-- Environment of one get_trending_song call: whether YOUTUBE_API_KEY is
set, and the outcome of the HTTP request plus JSON parse (error means an
exception was raised and caught). -/
structure TrendingEnv where
  hasApiKey : Bool
  response : Except Unit (List TrendingItem)

/-- Query parameters of the ranking-source request, verbatim from the
params dict in get_trending_song. -/
structure TrendingRequestParams where
  part : String
  chart : String
  videoCategoryId : String
  maxResults : ℕ
  regionCode : String
  deriving Repr

/-- The parameters the code sends. -/
def trendingParams : TrendingRequestParams :=
  { part := "snippet", chart := "mostPopular", videoCategoryId := "10"
    maxResults := 1, regionCode := "US" }

/-- Base of every returned watch URL. -/
def trendingBaseUrl : String := "https://www.youtube.com/watch?v="

/-- Hardcoded fallback URL of get_trending_song. -/
def defaultSongUrl : String := "https://www.youtube.com/watch?v=dQw4w9WgXcQ"

/-- Shallow embedding of get_trending_song: no key, a raised exception, or
an empty (falsy) items list all yield the default URL; otherwise the URL
is built from the id of the first item. -/
def get_trending_song (env : TrendingEnv) : String :=
  if env.hasApiKey = false then defaultSongUrl
  else
    match env.response with
    | Except.error _ => defaultSongUrl
    | Except.ok [] => defaultSongUrl
    | Except.ok (item :: _) => trendingBaseUrl ++ item.id

/-- Modelled from the spec: the fallback selection rule of the Trending
Selector, choosing the candidate with the maximum view count. No such
selection exists in src/main.py; this definition exists only to compare
the code against the spec sentence. -/
def specMaxViewSelect : List TrendingItem → Option TrendingItem
  | [] => none
  | x :: xs =>
    some (xs.foldl (fun best y => if best.viewCount < y.viewCount then y else best) x)

/-! ## Media fetcher: convenience-API strategy (download_youtube_video_via_api, lines 18-90) -/

/-- The JSON payload of a cobalt.tools response, with the HTTP status
code: a status string, an optional top-level url field, and the optional
url fields of the picker entries. -/
structure ApiResponse where
  statusCode : ℕ
  status : String
  url : Option String
  picker : List (Option String)
  deriving Repr

/-- Environment of one download_youtube_video_via_api call: the outcome of
the POST to the API (error means the call or the JSON parse raised), the
outcome of downloading the returned link (error means requests.get,
raise_for_status or the chunked write raised; ok b means the write
finished and b says whether the file exists afterwards), and the value
that download_youtube_video_ytdlp would return if invoked. -/
structure ApiEnv where
  post : Except Unit ApiResponse
  fetch : Except Unit Bool
  ytdlp : Option String

/-- Extraction of the download url from the payload, verbatim from lines
52-61: the top-level url for redirect or stream status, the first picker
entry's url for picker status, none otherwise. -/
def extractDownloadUrl (r : ApiResponse) : Option String :=
  if r.status = "redirect" ∨ r.status = "stream" then r.url
  else if r.status = "picker" then
    match r.picker with
    | [] => none
    | p :: _ => p
  else none

/-- Final path of the written file, from line 73. -/
def apiFinalPath (output_path : String) : String :=
  if output_path.endsWith ".mp4" then output_path else output_path ++ ".mp4"

/-- Shallow embedding of download_youtube_video_via_api. A non-200 status
returns none at line 47, inside the try block, without consulting the
fallback; a missing download url falls back to download_youtube_video_ytdlp
at line 66; any raised exception is caught at line 87 and also falls back. -/
def download_youtube_video_via_api (env : ApiEnv) (output_path : String) :
    Option String :=
  match env.post with
  | Except.error _ => env.ytdlp
  | Except.ok resp =>
    if resp.statusCode ≠ 200 then none
    else
      match extractDownloadUrl resp with
      | none => env.ytdlp
      | some _ =>
        match env.fetch with
        | Except.error _ => env.ytdlp
        | Except.ok true => some (apiFinalPath output_path)
        | Except.ok false => none

/-! ## Filesystem model and HTTP handlers -/

/-- State of the scratch directory: each filename maps to the bytes of the
file stored there, or none when absent. All paths in play live in the one
TEMP_DIR, so filenames are the keys. -/
def FileSys : Type := String → Option (List ℕ)

/-- Writing a file (open for write then sequential writes). -/
def writeFile (fs : FileSys) (name : String) (bytes : List ℕ) : FileSys :=
  fun n => if n = name then some bytes else fs n

/-- os.remove guarded by os.path.exists: afterwards the name is absent. -/
def deleteFile (fs : FileSys) (name : String) : FileSys :=
  fun n => if n = name then none else fs n

/-- Bytes written by the chunk loop of download_youtube_video_via_api,
which skips falsy (empty) chunks: `if chunk: f.write(chunk)`. -/
def writtenBytes (chunks : List (List ℕ)) : List ℕ :=
  chunks.foldl (fun acc c => if c = [] then acc else acc ++ c) []

/-- Bytes written by the unguarded chunk loop of the process endpoint. -/
def streamedBytes (chunks : List (List ℕ)) : List ℕ :=
  chunks.foldl (fun acc c => acc ++ c) []

/-- Request body as the handlers see it: request.get_json gave no data, or
gave a dict in which videoUrl may be missing. -/
structure JsonBody where
  videoUrl : Option String

/-- Response of the download endpoint: the success JSON, or an error JSON
with its HTTP status and message. -/
inductive DlResponse
  | ok (fileUrl filename : String) (size : ℕ)
  | err (status : ℕ) (msg : String)
  deriving DecidableEq, Repr

/-- os.path.basename for the slash-separated paths the service builds. -/
def basename (p : String) : String := (p.splitOn "/").getLastD p

/-- Environment of one POST /download request: the parsed body, the value
returned by download_youtube_video_via_api, the filesystem consulted by
the exists and getsize calls, and whether some call inside the try block
raised an exception with the given message. -/
structure DownloadEnv where
  body : Option JsonBody
  apiResult : Option String
  fsize : String → Option ℕ
  raised : Option String

/-- Shallow embedding of the /download handler (lines 303-345). -/
def download_endpoint (env : DownloadEnv) : DlResponse :=
  match env.body with
  | none => DlResponse.err 400 "No JSON data"
  | some b =>
    match b.videoUrl with
    | none => DlResponse.err 400 "No videoUrl"
    | some _ =>
      match env.raised with
      | some msg => DlResponse.err 500 msg
      | none =>
        match env.apiResult with
        | none => DlResponse.err 500 "Download failed"
        | some path =>
          match env.fsize path with
          | none => DlResponse.err 500 "Download failed"
          | some size =>
            DlResponse.ok ("/get-file/" ++ basename path) (basename path) size

/-- Response of the get-file endpoint: the served bytes, or the 404 error. -/
inductive FileResponse
  | served (bytes : List ℕ)
  | notFound
  deriving DecidableEq, Repr

/-- Shallow embedding of the /get-file/(filename) handler (lines 409-426):
serve the file from the scratch directory if it exists, else 404. -/
def get_file_endpoint (fs : FileSys) (filename : String) : FileResponse :=
  match fs filename with
  | some b => FileResponse.served b
  | none => FileResponse.notFound

/-- Filesystem effect of the write loop at lines 75-78 of the api
download: the chunked content lands at the final path. -/
def apiWrite (fs : FileSys) (finalP : String) (chunks : List (List ℕ)) : FileSys :=
  writeFile fs finalP (writtenBytes chunks)

/-- Name of the temporary input file of a /process-video run at timestamp t. -/
def inputName (t : ℕ) : String := "input_" ++ toString t ++ ".mp4"

/-- Name of the output file of a /process-video run at timestamp t. -/
def outputName (t : ℕ) : String := "output_" ++ toString t ++ ".mp4"

/-- Response of the process endpoint. -/
inductive ProcResponse
  | ok (processedFileUrl filename : String) (size : ℕ)
  | err (status : ℕ) (msg : String)
  deriving DecidableEq, Repr

/-- Environment of one POST /process-video request: the parsed body, the
outcome of the streaming HTTP fetch of the input (error carries the
exception message; the finally block still runs on that path), and the
outcome of process_video plus the exists check on its output (some bytes
when process_video returned True and the output file holds those bytes). -/
structure ProcessEnv where
  body : Option JsonBody
  fetch : Except String (List (List ℕ))
  processed : Option (List ℕ)

/-- Shallow embedding of the /process-video handler (lines 348-406): the
two 400 returns happen before input_path is assigned, so their finally
pass deletes nothing; every later path runs the finally deletion of the
input file; the output file is written on the success path and never
deleted by this handler. -/
def process_endpoint (fs : FileSys) (t : ℕ) (env : ProcessEnv) :
    FileSys × ProcResponse :=
  match env.body with
  | none => (fs, ProcResponse.err 400 "No JSON data")
  | some b =>
    match b.videoUrl with
    | none => (fs, ProcResponse.err 400 "No videoUrl")
    | some _ =>
      match env.fetch with
      | Except.error msg =>
        (deleteFile fs (inputName t), ProcResponse.err 500 msg)
      | Except.ok chunks =>
        let fs1 := writeFile fs (inputName t) (streamedBytes chunks)
        match env.processed with
        | none =>
          (deleteFile fs1 (inputName t), ProcResponse.err 500 "Processing failed")
        | some out =>
          let fs2 := writeFile fs1 (outputName t) out
          (deleteFile fs2 (inputName t),
           ProcResponse.ok ("/get-file/" ++ outputName t) (outputName t) out.length)

/-! ## Claim theorems -/

/-- Helper: under D > d > 0, the scratch track must be looped, and the
composite covers the whole video: D is at most loops * d. The case
D ≤ d gives D ≤ d directly, so the trim interval is always inside the
pre-trim clip. -/
theorem le_preTrimDuration (D d : ℚ) (hd : 0 < d) (hD : 0 < D) :
    D ≤ preTrimDuration D d := by
  unfold preTrimDuration
  split
  case isTrue h =>
    unfold compositeDuration loops
    have h0 : (0 : ℤ) ≤ ⌊D / d⌋ := Int.floor_nonneg.mpr (le_of_lt (div_pos hD hd))
    have key : D < ((⌊D / d⌋ : ℚ) + 1) * d := by
      have h1 : D / d < (⌊D / d⌋ : ℚ) + 1 := Int.lt_floor_add_one (D / d)
      have h2 : D / d * d < ((⌊D / d⌋ : ℚ) + 1) * d :=
        mul_lt_mul_of_pos_right h1 hd
      have h3 : D / d * d = D := by field_simp
      linarith
    have hcast : (((⌊D / d⌋).toNat : ℕ) : ℚ) = ((⌊D / d⌋ : ℤ) : ℚ) := by
      exact_mod_cast Int.toNat_of_nonneg h0
    push_cast
    rw [hcast]
    linarith
  case isFalse h =>
    exact le_of_not_lt h

/-- C1: in process_video, for D > d the number of looped copies is
floor(D / d) + 1, copy i starts at offset i * d, consecutive copies are
sequential and non-overlapping (copy i ends exactly where copy i + 1
starts), and the spec scenario D = 130, d = 47 yields 3 copies spanning
0 to 141. -/
theorem loop_copy_placement (D d : ℚ) (hd : 0 < d) (hDd : d < D) :
    (loopStarts D d).length = (⌊D / d⌋).toNat + 1 ∧
    (∀ i : ℕ, i < loops D d → (loopStarts D d)[i]? = some ((i : ℚ) * d)) ∧
    (∀ i : ℕ, i + 1 < loops D d →
      (loopStarts D d)[i + 1]? = some ((i : ℚ) * d + d)) ∧
    loops 130 47 = 3 ∧ compositeDuration 130 47 = 141 := by
  refine ⟨?_, ?_, ?_, loops_130_47, compositeDuration_130_47⟩
  · simp only [loopStarts]
    rw [List.length_map, List.length_range]
    rfl
  · intro i hi
    simp only [loopStarts]
    rw [List.getElem?_map, List.getElem?_range hi]
    rfl
  · intro i hi
    simp only [loopStarts]
    rw [List.getElem?_map, List.getElem?_range hi]
    show some (((i + 1 : ℕ) : ℚ) * d) = some ((i : ℚ) * d + d)
    congr 1
    push_cast
    ring

/-- Witness for loop_copy_placement at the spec scenario D = 130, d = 47. -/
theorem loop_copy_placement_witness :
    (0 : ℚ) < 47 ∧ (47 : ℚ) < 130 ∧
    ((loopStarts 130 47).length = (⌊(130 : ℚ) / 47⌋).toNat + 1 ∧
     (∀ i : ℕ, i < loops 130 47 → (loopStarts 130 47)[i]? = some ((i : ℚ) * 47)) ∧
     (∀ i : ℕ, i + 1 < loops 130 47 →
       (loopStarts 130 47)[i + 1]? = some ((i : ℚ) * 47 + 47)) ∧
     loops 130 47 = 3 ∧ compositeDuration 130 47 = 141) :=
  ⟨by norm_num, by norm_num,
   loop_copy_placement 130 47 (by norm_num) (by norm_num)⟩

/-- C2: on every successful run of process_video in which the replacement
track was fetched, the trim to the interval from 0 to D is inside the
(possibly looped) track, and the audio attached to the output has duration
exactly D. -/
theorem attached_audio_matches_video (D d : ℚ) (hd : 0 < d) (hD : 0 < D) :
    D ≤ preTrimDuration D d ∧
    (process_video D (some d) FailPoint.ok).audioDuration = some D := by
  have hle := le_preTrimDuration D d hd hD
  refine ⟨hle, ?_⟩
  show attachedAudioDuration D d = some D
  unfold attachedAudioDuration subclip
  rw [if_pos ⟨le_refl (0 : ℚ), le_of_lt hD, hle⟩]
  norm_num

/-- Witness for attached_audio_matches_video at D = 130, d = 47. -/
theorem attached_audio_matches_video_witness :
    (0 : ℚ) < 47 ∧ (0 : ℚ) < 130 ∧
    ((130 : ℚ) ≤ preTrimDuration 130 47 ∧
     (process_video 130 (some 47) FailPoint.ok).audioDuration = some 130) :=
  ⟨by norm_num, by norm_num,
   attached_audio_matches_video 130 47 (by norm_num) (by norm_num)⟩

/-- C3: when the trending-track fetch returns none and no media operation
raises, process_video still writes an output video with no audio stream,
with the same visual duration D, and returns success. -/
theorem silent_video_on_fetch_failure (D : ℚ) :
    (process_video D none FailPoint.ok).success = true ∧
    (process_video D none FailPoint.ok).outputWritten = true ∧
    (process_video D none FailPoint.ok).outputHasAudio = false ∧
    (process_video D none FailPoint.ok).outputDuration = some D :=
  ⟨rfl, rfl, rfl, rfl⟩

/-- C5 counterexample: when the final write_videofile raises, the except
handler of process_video returns failure without closing anything, so the
source VideoFileClip handle stays open on that exit path. -/
theorem handle_leak_on_exception :
    Handle.video ∈ (process_video 130 (some 47) FailPoint.writeFinal).opened ∧
    (process_video 130 (some 47) FailPoint.writeFinal).closed = [] ∧
    (process_video 130 (some 47) FailPoint.writeFinal).success = false := by
  refine ⟨?_, rfl, rfl⟩
  show Handle.video ∈ [Handle.video, Handle.audioChain, Handle.videoNoAudio,
                       Handle.finalVideo]
  exact List.mem_cons_self _ _

/-- C5 amended: process_video releases every handle it opened on the two
normal exit paths (silent and audio-replacement), but on the exception
paths — which return failure — it releases none of the handles opened
before the raise. -/
theorem handles_released_on_normal_paths (D : ℚ) (fetched : Option ℚ) :
    (∀ h : Handle, h ∈ (process_video D fetched FailPoint.ok).opened →
      h ∈ (process_video D fetched FailPoint.ok).closed) ∧
    (∀ d : ℚ, fetched = some d →
      (process_video D fetched FailPoint.openAudio).closed = [] ∧
      (process_video D fetched FailPoint.writeFinal).closed = []) ∧
    (fetched = none →
      (process_video D fetched FailPoint.writeSilent).closed = []) := by
  refine ⟨?_, ?_, ?_⟩
  · intro h hh
    cases fetched with
    | none =>
      simp [process_video] at hh ⊢
      tauto
    | some d =>
      simp [process_video] at hh ⊢
      tauto
  · intro d hd
    subst hd
    exact ⟨rfl, rfl⟩
  · intro hn
    subst hn
    rfl

/-- Witness for handles_released_on_normal_paths: on the successful
audio path at D = 130, d = 47 the source video handle is both opened and
closed. -/
theorem handles_released_on_normal_paths_witness :
    Handle.video ∈ (process_video 130 (some 47) FailPoint.ok).opened ∧
    Handle.video ∈ (process_video 130 (some 47) FailPoint.ok).closed := by
  have hmem : Handle.video ∈ (process_video 130 (some 47) FailPoint.ok).opened := by
    show Handle.video ∈ [Handle.video, Handle.audioChain, Handle.videoNoAudio,
                         Handle.finalVideo]
    exact List.mem_cons_self _ _
  exact ⟨hmem, (handles_released_on_normal_paths 130 (some 47)).1 Handle.video hmem⟩

/-- C4 counterexample: a non-200 response from the convenience API makes
download_youtube_video_via_api return none at line 47 without invoking the
ytdlp fallback, even when the fallback would have produced a file. -/
theorem api_non200_returns_failure_directly :
    download_youtube_video_via_api
      { post := Except.ok
          { statusCode := 404, status := "error", url := none, picker := [] }
        fetch := Except.ok true, ytdlp := some "fallback.mp4" } "out" = none ∧
    (some "fallback.mp4" ≠ (none : Option String)) ∧ (404 : ℕ) ≠ 200 :=
  ⟨rfl, Option.some_ne_none _, by decide⟩

/-- C4 amended: download_youtube_video_via_api falls back to the ytdlp
strategy on a raised exception (of the POST or of the content download)
and on a missing download-URL field, but on a non-200 response it returns
failure (none) directly without falling back. -/
theorem api_fallback_policy (env : ApiEnv) (out : String) :
    (env.post = Except.error () →
      download_youtube_video_via_api env out = env.ytdlp) ∧
    (∀ r, env.post = Except.ok r → r.statusCode ≠ 200 →
      download_youtube_video_via_api env out = none) ∧
    (∀ r, env.post = Except.ok r → r.statusCode = 200 →
      extractDownloadUrl r = none →
      download_youtube_video_via_api env out = env.ytdlp) ∧
    (∀ r, env.post = Except.ok r → r.statusCode = 200 →
      extractDownloadUrl r ≠ none → env.fetch = Except.error () →
      download_youtube_video_via_api env out = env.ytdlp) := by
  refine ⟨?_, ?_, ?_, ?_⟩
  · intro hp
    simp [download_youtube_video_via_api, hp]
  · intro r hp hs
    simp [download_youtube_video_via_api, hp, hs]
  · intro r hp hs hu
    simp [download_youtube_video_via_api, hp, hs, hu]
  · intro r hp hs hu hf
    cases hx : extractDownloadUrl r with
    | none => exact absurd hx hu
    | some u => simp [download_youtube_video_via_api, hp, hs, hx, hf]

/-- Witness for api_fallback_policy: with a raised POST the result is the
ytdlp fallback value. -/
theorem api_fallback_policy_witness :
    download_youtube_video_via_api
      { post := Except.error (), fetch := Except.ok true,
        ytdlp := some "fb.mp4" } "out" = some "fb.mp4" :=
  (api_fallback_policy
    { post := Except.error (), fetch := Except.ok true, ytdlp := some "fb.mp4" }
    "out").1 rfl

/-- C6 counterexample: the code requests maxResults = 1 (not about 5) and
returns the first item of the response unconditionally; on a response
where the first item has fewer views than the second it does not return
the URL of the maximum-view-count candidate. -/
theorem trending_ignores_view_count :
    trendingParams.maxResults = 1 ∧ (1 : ℕ) ≠ 5 ∧
    get_trending_song
      { hasApiKey := true
        response := Except.ok
          [{ id := "aaa", viewCount := 1 }, { id := "bbb", viewCount := 100 }] }
      = trendingBaseUrl ++ "aaa" ∧
    specMaxViewSelect
        [{ id := "aaa", viewCount := 1 }, { id := "bbb", viewCount := 100 }]
      = some { id := "bbb", viewCount := 100 } ∧
    trendingBaseUrl ++ "aaa" ≠ trendingBaseUrl ++ "bbb" := by
  refine ⟨rfl, by decide, rfl, by decide, by decide⟩

/-- C6 amended: get_trending_song queries the ranking source for the
single top item (maxResults = 1) of the music category and, when the call
succeeds with a nonempty item list, returns the URL of that first item; no
text-ranking heuristic and no view-count comparison exist in the code. -/
theorem trending_selects_first_item (env : TrendingEnv) :
    trendingParams.maxResults = 1 ∧
    (∀ item rest, env.hasApiKey = true →
      env.response = Except.ok (item :: rest) →
      get_trending_song env = trendingBaseUrl ++ item.id) := by
  refine ⟨rfl, ?_⟩
  intro item rest hk hr
  simp [get_trending_song, hk, hr]

/-- Witness for trending_selects_first_item with a one-item response. -/
theorem trending_selects_first_item_witness :
    trendingParams.maxResults = 1 ∧
    get_trending_song { hasApiKey := true, response := Except.ok [⟨"abc", 7⟩] }
      = trendingBaseUrl ++ "abc" :=
  ⟨(trending_selects_first_item
      { hasApiKey := true, response := Except.ok [⟨"abc", 7⟩] }).1,
   (trending_selects_first_item
      { hasApiKey := true, response := Except.ok [⟨"abc", 7⟩] }).2
     ⟨"abc", 7⟩ [] rfl rfl⟩

/-- C7: get_trending_song is a total function of its environment (every
exception of the ranking call is caught), it always returns a watch URL,
and a missing credential, a raised call or an empty item list each yield
the hardcoded default URL. -/
theorem trending_never_raises (env : TrendingEnv) :
    (∃ vid : String, get_trending_song env = trendingBaseUrl ++ vid) ∧
    (env.hasApiKey = false → get_trending_song env = defaultSongUrl) ∧
    (env.response = Except.error () → get_trending_song env = defaultSongUrl) ∧
    (env.response = Except.ok [] → get_trending_song env = defaultSongUrl) := by
  obtain ⟨k, r⟩ := env
  refine ⟨?_, ?_, ?_, ?_⟩
  · cases k with
    | false => exact ⟨"dQw4w9WgXcQ", rfl⟩
    | true =>
      cases r with
      | error e => exact ⟨"dQw4w9WgXcQ", rfl⟩
      | ok items =>
        cases items with
        | nil => exact ⟨"dQw4w9WgXcQ", rfl⟩
        | cons x xs => exact ⟨x.id, rfl⟩
  · intro hk
    subst hk
    rfl
  · intro hr
    subst hr
    cases k <;> rfl
  · intro hr
    subst hr
    cases k <;> rfl

/-- Witness for trending_never_raises: with no credential the default URL
is returned. -/
theorem trending_never_raises_witness :
    get_trending_song { hasApiKey := false, response := Except.ok [] }
      = defaultSongUrl :=
  (trending_never_raises { hasApiKey := false, response := Except.ok [] }).2.1 rfl

/-- C8: the /download handler returns 400 with an error message on a
missing body or a missing videoUrl field, 500 with an error message when
the download fails, when the downloaded file is absent, or when an
exception is raised, and on success a body with fileUrl of the form
/get-file/(name), the filename and the byte size. -/
theorem download_endpoint_contract (env : DownloadEnv) :
    (env.body = none →
      download_endpoint env = DlResponse.err 400 "No JSON data") ∧
    (∀ b, env.body = some b → b.videoUrl = none →
      download_endpoint env = DlResponse.err 400 "No videoUrl") ∧
    (∀ b u, env.body = some b → b.videoUrl = some u → env.raised = none →
      env.apiResult = none →
      download_endpoint env = DlResponse.err 500 "Download failed") ∧
    (∀ b u p, env.body = some b → b.videoUrl = some u → env.raised = none →
      env.apiResult = some p → env.fsize p = none →
      download_endpoint env = DlResponse.err 500 "Download failed") ∧
    (∀ b u msg, env.body = some b → b.videoUrl = some u →
      env.raised = some msg →
      download_endpoint env = DlResponse.err 500 msg) ∧
    (∀ b u p n, env.body = some b → b.videoUrl = some u → env.raised = none →
      env.apiResult = some p → env.fsize p = some n →
      download_endpoint env
        = DlResponse.ok ("/get-file/" ++ basename p) (basename p) n) := by
  refine ⟨?_, ?_, ?_, ?_, ?_, ?_⟩ <;> intros <;> simp_all [download_endpoint]

/-- Witness for download_endpoint_contract: a request with no JSON body
gets the 400 error. -/
theorem download_endpoint_contract_witness :
    download_endpoint
      { body := none, apiResult := none, fsize := fun _ => none, raised := none }
      = DlResponse.err 400 "No JSON data" :=
  (download_endpoint_contract
    { body := none, apiResult := none, fsize := fun _ => none,
      raised := none }).1 rfl

/-- Helper: the guarded chunk fold appends exactly the concatenation of
the chunks to the accumulator (empty chunks contribute nothing). -/
theorem writtenBytes_foldl_append (chunks : List (List ℕ)) (acc : List ℕ) :
    chunks.foldl (fun a c => if c = [] then a else a ++ c) acc
      = acc ++ chunks.flatten := by
  induction chunks generalizing acc with
  | nil => simp
  | cons c cs ih =>
    by_cases hc : c = []
    · subst hc
      simp [ih]
    · rw [List.foldl_cons, if_neg hc, ih, List.flatten_cons, List.append_assoc]

/-- Helper: the bytes the api download writes are the concatenation of
all chunks of the HTTP stream. -/
theorem writtenBytes_eq_flatten (chunks : List (List ℕ)) :
    writtenBytes chunks = chunks.flatten := by
  unfold writtenBytes
  rw [writtenBytes_foldl_append]
  simp

/-- C9: after the api download writes a file into the scratch directory,
a GET of that filename serves exactly the written bytes, which are
exactly the streamed content, and a GET of an absent filename is a 404. -/
theorem get_file_roundtrip (fs : FileSys) (name : String)
    (chunks : List (List ℕ)) :
    get_file_endpoint (apiWrite fs name chunks) name
      = FileResponse.served (writtenBytes chunks) ∧
    writtenBytes chunks = chunks.flatten ∧
    (fs name = none → get_file_endpoint fs name = FileResponse.notFound) := by
  refine ⟨?_, writtenBytes_eq_flatten chunks, ?_⟩
  · simp [get_file_endpoint, apiWrite, writeFile]
  · intro h
    unfold get_file_endpoint
    rw [h]

/-- Witness for get_file_roundtrip: a concrete write then read, and a 404
on an empty scratch directory. -/
theorem get_file_roundtrip_witness :
    get_file_endpoint
      (apiWrite (fun _ => none) "video_1.mp4" [[1, 2], [], [3]]) "video_1.mp4"
      = FileResponse.served [1, 2, 3] ∧
    get_file_endpoint (fun _ => none) "video_1.mp4" = FileResponse.notFound := by
  refine ⟨?_, (get_file_roundtrip (fun _ => none) "video_1.mp4" []).2.2 rfl⟩
  have h := (get_file_roundtrip (fun _ => none) "video_1.mp4" [[1, 2], [], [3]]).1
  rw [h]
  rfl

/-- Helper: the input and output filenames of one timestamp differ (their
prefixes have different lengths). -/
theorem inputName_ne_outputName (t : ℕ) : inputName t ≠ outputName t := by
  intro h
  have hlen := congrArg String.length h
  simp only [inputName, outputName, String.length_append] at hlen
  have h1 : "input_".length = 6 := rfl
  have h2 : "output_".length = 7 := rfl
  rw [h1, h2] at hlen
  omega

/-- C10: the finally block of the /process-video handler removes the
downloaded temporary input file on every exit path that assigned it
(success, processing failure, fetch exception); the handler never deletes
the produced output file; and if the input name was absent before the
request it is absent after it on every path. -/
theorem process_endpoint_cleanup (fs : FileSys) (t : ℕ) (env : ProcessEnv) :
    (∀ b u, env.body = some b → b.videoUrl = some u →
      (process_endpoint fs t env).1 (inputName t) = none) ∧
    (fs (inputName t) = none →
      (process_endpoint fs t env).1 (inputName t) = none) ∧
    (∀ b u chunks out, env.body = some b → b.videoUrl = some u →
      env.fetch = Except.ok chunks → env.processed = some out →
      (process_endpoint fs t env).1 (outputName t) = some out) := by
  obtain ⟨body, fetch, processed⟩ := env
  refine ⟨?_, ?_, ?_⟩
  · rintro b u rfl hu
    cases fetch with
    | error msg => simp [process_endpoint, hu, deleteFile]
    | ok chunks =>
      cases processed with
      | none => simp [process_endpoint, hu, deleteFile]
      | some out => simp [process_endpoint, hu, deleteFile]
  · intro hfs
    cases body with
    | none => simpa [process_endpoint] using hfs
    | some b =>
      cases hb : b.videoUrl with
      | none => simpa [process_endpoint, hb] using hfs
      | some u =>
        cases fetch with
        | error msg => simp [process_endpoint, hb, deleteFile]
        | ok chunks =>
          cases processed with
          | none => simp [process_endpoint, hb, deleteFile]
          | some out => simp [process_endpoint, hb, deleteFile]
  · rintro b u chunks out rfl hu rfl rfl
    have hne : outputName t ≠ inputName t := Ne.symm (inputName_ne_outputName t)
    simp [process_endpoint, hu, deleteFile, writeFile, hne]

/-- Witness for process_endpoint_cleanup at a concrete successful run. -/
theorem process_endpoint_cleanup_witness :
    (process_endpoint (fun _ => none) 7
      { body := some { videoUrl := some "u" }, fetch := Except.ok [[1]],
        processed := some [2] }).1 (inputName 7) = none ∧
    (process_endpoint (fun _ => none) 7
      { body := some { videoUrl := some "u" }, fetch := Except.ok [[1]],
        processed := some [2] }).1 (outputName 7) = some [2] :=
  ⟨(process_endpoint_cleanup (fun _ => none) 7
      { body := some { videoUrl := some "u" }, fetch := Except.ok [[1]],
        processed := some [2] }).1 { videoUrl := some "u" } "u" rfl rfl,
   (process_endpoint_cleanup (fun _ => none) 7
      { body := some { videoUrl := some "u" }, fetch := Except.ok [[1]],
        processed := some [2] }).2.2 { videoUrl := some "u" } "u" [[1]] [2]
     rfl rfl rfl rfl⟩

end YoutubeAutomation
